import Mathlib

set_option autoImplicit false

/-!
Shallow embedding of `nucypher/blockchain/eth/chains.py` (class `Blockchain`).

The Python class keeps a process-wide singleton in the class attribute
`Blockchain._instance` (sentinel `NO_BLOCKCHAIN_AVAILABLE` when absent).
We model that mutable class attribute as an explicit `ChainState` threaded
through the operations, and Python object identity as a numeric id (`iid`)
allocated from `ChainState.nextId`.  External collaborators (registry
fetching, the web3 node RPC, wall-clock time) are modelled as oracle
functions supplied to each operation; Python exceptions become explicit
error values returned next to the post-state (an exception does not roll
back state mutations, so operations return the post-state in both cases).
-/

namespace NucypherChains

/-- Python object identity of a `Blockchain` instance. -/
abbrev InstanceId := Nat

/-- An `EthereumContractRegistry` collaborator, identified by a number. -/
structure Registry where
  rid : Nat
  deriving DecidableEq, Repr

/-- A provider child process (`provider_process`); `running` tracks
whether `start()` has been called without a subsequent `stop()`. -/
structure Process where
  running : Bool
  deriving DecidableEq, Repr

/-- The `BlockchainInterface` / `BlockchainDeployerInterface` object bound to an
instance: its `provider_uri`, its mutable `registry` reference, whether the
deployer variant was selected, and whether POA middleware was injected. -/
structure Interface where
  provider_uri : Option String
  registry : Registry
  deployer : Bool
  poa : Bool
  deriving DecidableEq, Repr

/-- One `Blockchain` object: identity, owned provider process, interface. -/
structure BcInstance where
  iid : InstanceId
  provider_process : Option Process
  interface : Interface
  deriving DecidableEq, Repr

/-- The mutable class-level state: `Blockchain._instance` (`none` models the
`NO_BLOCKCHAIN_AVAILABLE` sentinel) plus a fresh-identity counter. -/
structure ChainState where
  inst? : Option BcInstance
  nextId : Nat
  deriving DecidableEq, Repr

/-- Python exceptions surfaced by the connection lifecycle. -/
inductive PyError
  | runtimeError (msg : String)
  | valueError (msg : String)
  | syncTimeoutError
  deriving DecidableEq, Repr

/-- Python `str()` of an optional string (`None` prints as `"None"`),
as used by `"...".format(existing_uri)`. -/
def pyStr : Option String → String
  | none => "None"
  | some s => s

/-- `Blockchain.__init__` (chains.py lines 49-66): store the provider process
and interface on the object; if the singleton slot is empty, install this
object as `Blockchain._instance`, otherwise raise
`RuntimeError("Connection already established - Use .connect()")`.
On the error path no new object becomes reachable and the singleton is
untouched. -/
def Blockchain.init (s : ChainState) (provider_process : Option Process)
    (interface : Interface) : ChainState × Except PyError BcInstance :=
  match s.inst? with
  | none =>
    let inst : BcInstance :=
      { iid := s.nextId, provider_process := provider_process, interface := interface }
    ({ inst? := some inst, nextId := s.nextId + 1 }, .ok inst)
  | some _ =>
    (s, .error (.runtimeError "Connection already established - Use .connect()"))

/-- The `ValueError` message raised by `connect` on a conflicting provider URI
(chains.py lines 189-190), with the format placeholder already substituted. -/
def conflictingConnectionMsg (existing_uri : Option String) : String :=
  "There is an existing blockchain connection to " ++ pyStr existing_uri ++
    ". Use Interface.add_provider to connect additional providers"

/-- Environment of one `connect` call: what
`EthereumContractRegistry.from_latest_publication()` would return (`.error`
models `NodeConfiguration.NoConfigurationRoot`), the fresh registry a bare
`EthereumContractRegistry()` constructor would produce, and the outcome of the
`sync()` call made when `full_sync` is true (`.error` models `SyncTimeout`). -/
structure ConnectEnv where
  fetchLatestPublication : Except Unit Registry
  freshRegistry : Registry
  syncOutcome : Except Unit Unit
  deriving Repr

/-- Arguments of one `Blockchain.connect` call (chains.py lines 138-149),
bundled with that call's collaborator environment. -/
structure ConnectArgs where
  env : ConnectEnv
  provider_process : Option Process
  provider_uri : Option String
  registry : Option Registry
  deployer : Bool
  poa : Bool
  force : Bool
  fetch_registry : Bool
  full_sync : Bool

/-- The guard of chains.py lines 186-188: a `provider_uri` was supplied, it
differs from the existing connection's URI, and `force` is false. -/
def conflictingUri (provider_uri : Option String) (force : Bool)
    (inst : BcInstance) : Bool :=
  match provider_uri with
  | some uri => decide (inst.interface.provider_uri ≠ some uri) && !force
  | none => false

/-- `Blockchain.connect` (chains.py lines 138-197).

No instance: resolve a registry (fetch the latest publication when none was
supplied and `fetch_registry` is set, falling back to a fresh empty registry
on `NoConfigurationRoot`), start the provider process if one was supplied,
build the interface bound to `provider_uri` and the registry, construct the
singleton via `__init__`, then run `sync()` when `full_sync` is set (a
`SyncTimeout` propagates, leaving the singleton installed).

Instance exists: if a `provider_uri` was supplied that differs from the
existing one and `force` is false, raise `ValueError` naming the existing
URI; otherwise swap the registry in place when one was supplied, and return
the existing instance. -/
def Blockchain.connect (a : ConnectArgs) (s : ChainState) :
    ChainState × Except PyError BcInstance :=
  match s.inst? with
  | none =>
    let registry : Registry :=
      if a.registry = none ∧ a.fetch_registry = true then
        match a.env.fetchLatestPublication with
        | .ok r => r
        | .error _ => a.env.freshRegistry
      else
        match a.registry with
        | some r => r
        | none => a.env.freshRegistry
    let provider_process : Option Process :=
      a.provider_process.map (fun p => { p with running := true })
    let interface : Interface :=
      { provider_uri := a.provider_uri, registry := registry,
        deployer := a.deployer, poa := a.poa }
    match Blockchain.init s provider_process interface with
    | (s', .error e) => (s', .error e)
    | (s', .ok inst) =>
      if a.full_sync = true then
        match a.env.syncOutcome with
        | .ok _ => (s', .ok inst)
        | .error _ => (s', .error .syncTimeoutError)
      else (s', .ok inst)
  | some inst =>
    if conflictingUri a.provider_uri a.force inst then
      (s, .error (.valueError (conflictingConnectionMsg inst.interface.provider_uri)))
    else
      match a.registry with
      | some r =>
        let inst' : BcInstance :=
          { inst with interface := { inst.interface with registry := r } }
        ({ s with inst? := some inst' }, .ok inst')
      | none => (s, .ok inst)

/-- `Blockchain.disconnect` (chains.py lines 199-203): when an instance
exists and it has a truthy `__provider_process`, call `stop()` on it.
Note the source never resets `cls._instance` to `NO_BLOCKCHAIN_AVAILABLE`. -/
def Blockchain.disconnect (s : ChainState) : ChainState :=
  match s.inst? with
  | none => s
  | some inst =>
    match inst.provider_process with
    | some p =>
      let stopped : Process := { p with running := false }
      let inst' : BcInstance := { inst with provider_process := some stopped }
      { s with inst? := some inst' }
    | none => s

/-- Run a sequence of `connect` calls from a starting state, collecting each
call's result (Python return value or raised exception). -/
def runConnects (s : ChainState) :
    List ConnectArgs → ChainState × List (Except PyError BcInstance)
  | [] => (s, [])
  | a :: rest =>
    let step := Blockchain.connect a s
    let next := runConnects step.1 rest
    (next.1, step.2 :: next.2)

/-- One entry of `w3.geth.admin.peers()`: we keep only
`peer['protocols']['eth']['head']`, the block reference the peer claims as
its chain head, since that is all `sync` reads. -/
structure Peer where
  head : Nat
  deriving DecidableEq, Repr

/-- Outcome of `w3.eth.getBlock(ref)`: the block is found, the call raises
`web3.exceptions.BlockNotFound`, or it raises some other exception. -/
inductive GetBlockResult
  | found
  | blockNotFound
  | otherError
  deriving DecidableEq, Repr

/-- Oracle environment of one `sync` run.  `peers k` is the list returned by
the k-th evaluation of the `self.peers` property; `syncing k` is the value of
the k-th evaluation of `self.syncing` (`none` models the falsy `False`, and
`some (cur, high)` a truthy dict with `currentBlock`/`highestBlock`);
`getBlock r` is the outcome of `w3.eth.getBlock(r)`; `elapsed k` is the whole
number of seconds since `start_time` observed by the k-th call to
`check_for_timeout` (the source compares the integer
`(maya.now() - start_time).seconds` against the budget). -/
structure SyncEnv where
  peers : Nat → List Peer
  syncing : Nat → Option (Nat × Nat)
  getBlock : Nat → GetBlockResult
  elapsed : Nat → Nat

/-- How one `sync` run ends. `.ret none` is Python's implicit `return None`
(the no-sync-needed path); `.ret (some true)` is the explicit `return True`.
`.syncTimeout` is the raised `SyncTimeout`; `.rpcError` a propagated
non-`BlockNotFound` exception from `getBlock`; `.typeError` the `TypeError`
Python would raise subscripting a falsy `self.syncing` inside the progress
loop body; `.outOfFuel` means the modelled run was cut off before the code
would have decided (the source loops are unbounded). -/
inductive SyncOutcome
  | ret (v : Option Bool)
  | syncTimeout
  | rpcError
  | typeError
  | outOfFuel
  deriving DecidableEq, Repr

/-- `check_for_timeout(timeout=budget)` at the k-th check (chains.py lines
99-103): raises `SyncTimeout` exactly when the elapsed seconds strictly
exceed the budget. Returns `true` when the exception is raised. -/
def checkForTimeout (env : SyncEnv) (budget : Nat) (tc : Nat) : Bool :=
  budget < env.elapsed tc

/-- The peer-wait loop `while not self.peers: time.sleep(0);
check_for_timeout(timeout=30)` (chains.py lines 107-109).  `pc` counts
`self.peers` calls made so far and `tc` counts `check_for_timeout` calls.
Returns the counters at exit, plus `some outcome` if the loop raised
(or ran out of fuel). -/
def peerWaitLoop (env : SyncEnv) : Nat → Nat → Nat → (Nat × Nat) × Option SyncOutcome
  | 0, pc, tc => ((pc, tc), some .outOfFuel)
  | fuel + 1, pc, tc =>
    if env.peers pc ≠ [] then ((pc + 1, tc), none)
    else if checkForTimeout env 30 tc then ((pc + 1, tc + 1), some .syncTimeout)
    else peerWaitLoop env fuel (pc + 1) (tc + 1)

/-- The sync-need detection loop (chains.py lines 111-118): for each peer of
one `self.peers` snapshot, look up the peer's claimed head block; the first
`BlockNotFound` sets `needs_sync = True` and breaks out; any other exception
propagates; if every lookup succeeds, `needs_sync` stays `False`. -/
def detectNeedSync (env : SyncEnv) : List Peer → Except SyncOutcome Bool
  | [] => .ok false
  | p :: rest =>
    match env.getBlock p.head with
    | .found => detectNeedSync env rest
    | .blockNotFound => .ok true
    | .otherError => .error .rpcError

/-- The sync-start-wait loop `while not self.syncing: time.sleep(0);
check_for_timeout()` (chains.py lines 124-126), using the overall `timeout`
budget.  `sc` counts `self.syncing` calls. -/
def syncStartLoop (env : SyncEnv) (timeout : Nat) :
    Nat → Nat → Nat → (Nat × Nat) × Option SyncOutcome
  | 0, sc, tc => ((sc, tc), some .outOfFuel)
  | fuel + 1, sc, tc =>
    if (env.syncing sc).isSome then ((sc + 1, tc), none)
    else if checkForTimeout env timeout tc then ((sc + 1, tc + 1), some .syncTimeout)
    else syncStartLoop env timeout fuel (sc + 1) (tc + 1)

/-- The sync-progress loop (chains.py lines 129-134): while `self.syncing` is
truthy, read `self.syncing['currentBlock']` and `self.syncing['highestBlock']`
(each a fresh property call, so each body iteration polls `self.syncing` two
more times; a falsy value there would raise `TypeError` under subscripting),
sleep one second, and `check_for_timeout()` with the overall budget. -/
def syncProgressLoop (env : SyncEnv) (timeout : Nat) :
    Nat → Nat → Nat → (Nat × Nat) × Option SyncOutcome
  | 0, sc, tc => ((sc, tc), some .outOfFuel)
  | fuel + 1, sc, tc =>
    match env.syncing sc with
    | none => ((sc + 1, tc), none)
    | some _ =>
      match env.syncing (sc + 1) with
      | none => ((sc + 2, tc), some .typeError)
      | some _ =>
        match env.syncing (sc + 2) with
        | none => ((sc + 3, tc), some .typeError)
        | some _ =>
          if checkForTimeout env timeout tc then ((sc + 3, tc + 1), some .syncTimeout)
          else syncProgressLoop env timeout fuel (sc + 3) (tc + 1)

/-- The result of one `sync` run: its outcome, and how many times the
`self.syncing` property (the node's `syncStatus`) was polled in total. -/
structure SyncRun where
  outcome : SyncOutcome
  syncingCalls : Nat
  deriving DecidableEq, Repr

/-- `Blockchain.sync(timeout)` (chains.py lines 89-136), driven by the oracle
environment, with explicit `fuel` bounding each polling loop.  Phases: the
peer-wait loop; one further `self.peers` call feeding the need-detection
loop; then, only when sync is needed, one more (unused, for logging)
`self.peers` call, the start-wait loop and the progress loop, returning
`True`; when no sync is needed the function falls off the end, returning
`None` without ever touching `self.syncing`. -/
def Blockchain.sync (env : SyncEnv) (fuel timeout : Nat) : SyncRun :=
  match (peerWaitLoop env fuel 0 0).2 with
  | some o => ⟨o, 0⟩
  | none =>
    match detectNeedSync env (env.peers (peerWaitLoop env fuel 0 0).1.1) with
    | .error o => ⟨o, 0⟩
    | .ok false => ⟨.ret none, 0⟩
    | .ok true =>
      match (syncStartLoop env timeout fuel 0 (peerWaitLoop env fuel 0 0).1.2).2 with
      | some o =>
        ⟨o, (syncStartLoop env timeout fuel 0 (peerWaitLoop env fuel 0 0).1.2).1.1⟩
      | none =>
        match (syncProgressLoop env timeout fuel
                (syncStartLoop env timeout fuel 0 (peerWaitLoop env fuel 0 0).1.2).1.1
                (syncStartLoop env timeout fuel 0 (peerWaitLoop env fuel 0 0).1.2).1.2).2 with
        | some o =>
          ⟨o, (syncProgressLoop env timeout fuel
                (syncStartLoop env timeout fuel 0 (peerWaitLoop env fuel 0 0).1.2).1.1
                (syncStartLoop env timeout fuel 0 (peerWaitLoop env fuel 0 0).1.2).1.2).1.1⟩
        | none =>
          ⟨.ret (some true), (syncProgressLoop env timeout fuel
                (syncStartLoop env timeout fuel 0 (peerWaitLoop env fuel 0 0).1.2).1.1
                (syncStartLoop env timeout fuel 0 (peerWaitLoop env fuel 0 0).1.2).1.2).1.1⟩

/-- A transaction receipt payload treated as an uninterpreted value, returned verbatim by the node. -/
abbrev Receipt := Nat

/-- A transaction hash (a Python `bytes` value). -/
abbrev TxHash := List Nat

/-- The slice of `BlockchainInterface` that `wait_for_receipt` uses: its
default `timeout` attribute and the node client call
`w3.eth.waitForTransactionReceipt(txhash, timeout)`, modelled as an oracle
from transaction hash and timeout to the receipt the node hands back. -/
structure ReceiptInterface where
  timeout : Nat
  waitForTransactionReceipt : TxHash → Nat → Receipt

/-- `Blockchain.wait_for_receipt` (chains.py lines 212-216): substitute the
interface's default timeout when the caller passed `None`, delegate to
`w3.eth.waitForTransactionReceipt`, and return its result unchanged. -/
def Blockchain.wait_for_receipt (interface : ReceiptInterface) (txhash : TxHash)
    (timeout : Option Nat) : Receipt :=
  let t : Nat :=
    match timeout with
    | some v => v
    | none => interface.timeout
  interface.waitForTransactionReceipt txhash t

/-! ## Theorems about the embedded operations -/

/-- Claim C9: a call to `wait_for_receipt` with no timeout supplied performs
the wait with the connection interface's default timeout; a supplied timeout
is used instead; and in both cases the receipt produced by the node client's
`waitForTransactionReceipt` is returned verbatim. -/
theorem claimC9_wait_for_receipt (interface : ReceiptInterface)
    (txhash : TxHash) (t : Nat) :
    Blockchain.wait_for_receipt interface txhash none =
      interface.waitForTransactionReceipt txhash interface.timeout
    ∧ Blockchain.wait_for_receipt interface txhash (some t) =
      interface.waitForTransactionReceipt txhash t :=
  ⟨rfl, rfl⟩

/-- Claim C10: constructing a `Blockchain` directly while the singleton
already exists raises `RuntimeError` whose message starts with
"Connection already established", and leaves the singleton slot holding the
original instance (no second instance is installed). -/
theorem claimC10_init_when_connected (s : ChainState) (inst : BcInstance)
    (pp : Option Process) (interface : Interface)
    (h : s.inst? = some inst) :
    Blockchain.init s pp interface =
      (s, .error (.runtimeError "Connection already established - Use .connect()"))
    ∧ (∃ post, "Connection already established - Use .connect()" =
        "Connection already established" ++ post)
    ∧ (Blockchain.init s pp interface).1.inst? = some inst := by
  obtain ⟨i?, n⟩ := s
  simp only [ChainState.inst?] at h
  subst h
  exact ⟨rfl, ⟨" - Use .connect()", rfl⟩, rfl⟩

/-- Witness for claim C10 at a concrete state holding instance 0. -/
def stateC10 : ChainState :=
  { inst? := some { iid := 0, provider_process := none,
                    interface := { provider_uri := some "http://a", registry := ⟨3⟩,
                                   deployer := false, poa := false } },
    nextId := 1 }

/-- Claim C10 instantiated: a direct second construction against `stateC10`
fails with the `RuntimeError` and leaves the singleton as it was. -/
theorem claimC10_witness :
    Blockchain.init stateC10 none
        { provider_uri := none, registry := ⟨4⟩, deployer := false, poa := false } =
      (stateC10, .error (.runtimeError "Connection already established - Use .connect()"))
    ∧ (Blockchain.init stateC10 none
        { provider_uri := none, registry := ⟨4⟩, deployer := false, poa := false }).1.inst? =
      some { iid := 0, provider_process := none,
             interface := { provider_uri := some "http://a", registry := ⟨3⟩,
                            deployer := false, poa := false } } := by
  obtain ⟨e1, _, e3⟩ := claimC10_init_when_connected stateC10
    { iid := 0, provider_process := none,
      interface := { provider_uri := some "http://a", registry := ⟨3⟩,
                     deployer := false, poa := false } }
    none { provider_uri := none, registry := ⟨4⟩, deployer := false, poa := false } rfl
  exact ⟨e1, e3⟩

/-- Claim C7: with an existing connection whose URI is `u`, a `connect` call
supplying a different `nodeURI` with `force = false` fails with the
conflicting-connection `ValueError` whose message names the existing URI `u`,
and returns the state completely unchanged — in particular a simultaneously
supplied registry is not swapped in before the failure. -/
theorem claimC7_conflicting_connection (a : ConnectArgs) (s : ChainState)
    (inst : BcInstance) (u uri : String)
    (h1 : s.inst? = some inst)
    (h2 : inst.interface.provider_uri = some u)
    (h3 : a.provider_uri = some uri)
    (h4 : u ≠ uri)
    (h5 : a.force = false) :
    Blockchain.connect a s =
      (s, .error (.valueError
        ("There is an existing blockchain connection to " ++ u ++
         ". Use Interface.add_provider to connect additional providers")))
    ∧ (∃ pre post,
        conflictingConnectionMsg inst.interface.provider_uri = pre ++ u ++ post) := by
  obtain ⟨i?, n⟩ := s
  simp only [ChainState.inst?] at h1
  subst h1
  have hc : conflictingUri a.provider_uri a.force inst = true := by
    simp [conflictingUri, h3, h5, h2, h4]
  refine ⟨?_, ⟨"There is an existing blockchain connection to ",
    ". Use Interface.add_provider to connect additional providers",
    by simp [conflictingConnectionMsg, pyStr, h2]⟩⟩
  simp [Blockchain.connect, hc, conflictingConnectionMsg, pyStr, h2]

/-- Witness state for claims C7 and C8: a singleton connected to
`http://a` with registry 3, no owned process. -/
def stateC7 : ChainState :=
  { inst? := some { iid := 0, provider_process := none,
                    interface := { provider_uri := some "http://a", registry := ⟨3⟩,
                                   deployer := false, poa := false } },
    nextId := 1 }

/-- Connect arguments for the C7 witness: differing URI, `force = false`,
with a registry supplied (which must not be swapped in). -/
def argsC7 : ConnectArgs :=
  { env := { fetchLatestPublication := .ok ⟨9⟩, freshRegistry := ⟨0⟩,
             syncOutcome := .ok () },
    provider_process := none, provider_uri := some "http://b",
    registry := some ⟨4⟩, deployer := false, poa := false,
    force := false, fetch_registry := true, full_sync := true }

/-- Claim C7 instantiated: connecting to `http://b` with `force = false`
against the `http://a` singleton raises the `ValueError` naming `http://a`
and leaves the state (registry included) untouched. -/
theorem claimC7_witness :
    Blockchain.connect argsC7 stateC7 =
      (stateC7, .error (.valueError
        ("There is an existing blockchain connection to " ++ "http://a" ++
         ". Use Interface.add_provider to connect additional providers"))) :=
  (claimC7_conflicting_connection argsC7 stateC7
    { iid := 0, provider_process := none,
      interface := { provider_uri := some "http://a", registry := ⟨3⟩,
                     deployer := false, poa := false } }
    "http://a" "http://b" rfl rfl rfl (by decide) rfl).1

/-- Claim C8: with an existing connection and a differing `nodeURI` but
`force = true`, `connect` does not fail: it returns the existing instance
(same identity), and the interface stays bound to the original provider URI
(no reconnection to the new URI happens). -/
theorem claimC8_force_keeps_binding (a : ConnectArgs) (s : ChainState)
    (inst : BcInstance) (uri : String)
    (h1 : s.inst? = some inst)
    (h2 : a.provider_uri = some uri)
    (h3 : inst.interface.provider_uri ≠ some uri)
    (h4 : a.force = true) :
    ∃ inst' : BcInstance,
      Blockchain.connect a s = ({ s with inst? := some inst' }, .ok inst')
      ∧ inst'.iid = inst.iid
      ∧ inst'.interface.provider_uri = inst.interface.provider_uri := by
  obtain ⟨i?, n⟩ := s
  simp only [ChainState.inst?] at h1
  subst h1
  have hc : conflictingUri a.provider_uri a.force inst = false := by
    simp [conflictingUri, h2, h4]
  cases hr : a.registry with
  | none =>
    exact ⟨inst, by simp [Blockchain.connect, hc, hr], rfl, rfl⟩
  | some r =>
    exact ⟨{ inst with interface := { inst.interface with registry := r } },
      by simp [Blockchain.connect, hc, hr], rfl, rfl⟩

/-- Connect arguments for the C8 witness: differing URI, default
`force = true`, no registry supplied. -/
def argsC8 : ConnectArgs :=
  { env := { fetchLatestPublication := .ok ⟨9⟩, freshRegistry := ⟨0⟩,
             syncOutcome := .ok () },
    provider_process := none, provider_uri := some "http://b",
    registry := none, deployer := false, poa := false,
    force := true, fetch_registry := true, full_sync := true }

/-- The instance stored in `stateC7`, for the C8 witness. -/
def instC8 : BcInstance :=
  { iid := 0, provider_process := none,
    interface := { provider_uri := some "http://a", registry := ⟨3⟩,
                   deployer := false, poa := false } }

/-- Claim C8 instantiated: forcing a connect to `http://b` against the
`http://a` singleton succeeds and returns the original instance still bound
to `http://a`. -/
theorem claimC8_witness :
    (Blockchain.connect argsC8 stateC7).2 = .ok instC8
    ∧ instC8.iid = 0
    ∧ instC8.interface.provider_uri = some "http://a" := by
  obtain ⟨inst', h1, h2, h3⟩ := claimC8_force_keeps_binding argsC8 stateC7 instC8
    "http://b" rfl rfl (by decide) rfl
  have h4 : (Blockchain.connect argsC8 stateC7).2 = .ok inst' := by rw [h1]
  have h5 : Except.ok inst' = Except.ok instC8 := h4.symm.trans rfl
  injection h5 with h6
  rw [h6] at h4
  exact ⟨h4, rfl, rfl⟩

/-- With an always-empty peer list the peer-wait loop can only raise
`SyncTimeout` or exhaust its fuel, and it raises `SyncTimeout` exactly when
some timeout check within the fuel bound sees more than 30 elapsed
seconds. -/
theorem peerWaitLoop_empty (env : SyncEnv) (h : ∀ k, env.peers k = []) :
    ∀ fuel pc tc,
      ((peerWaitLoop env fuel pc tc).2 = some .syncTimeout ∨
       (peerWaitLoop env fuel pc tc).2 = some .outOfFuel)
      ∧ ((peerWaitLoop env fuel pc tc).2 = some .syncTimeout ↔
          ∃ j, j < fuel ∧ 30 < env.elapsed (tc + j)) := by
  intro fuel
  induction fuel with
  | zero =>
    intro pc tc
    simp [peerWaitLoop]
  | succ f ih =>
    intro pc tc
    by_cases hc : checkForTimeout env 30 tc
    · have h30 : 30 < env.elapsed tc := by
        simpa [checkForTimeout] using hc
      constructor
      · left
        simp [peerWaitLoop, h pc, hc]
      · simp only [peerWaitLoop, h pc]
        simp [hc]
        exact ⟨0, by omega, by simpa using h30⟩
    · have h30 : ¬ 30 < env.elapsed tc := by
        simpa [checkForTimeout] using hc
      have step : peerWaitLoop env (f + 1) pc tc = peerWaitLoop env f (pc + 1) (tc + 1) := by
        simp [peerWaitLoop, h pc, hc]
      rw [step]
      obtain ⟨ihl, ihr⟩ := ih (pc + 1) (tc + 1)
      refine ⟨ihl, ihr.trans ?_⟩
      constructor
      · rintro ⟨j, hj, hgt⟩
        exact ⟨j + 1, by omega, by
          have : tc + 1 + j = tc + (j + 1) := by omega
          rwa [this] at hgt⟩
      · rintro ⟨j, hj, hgt⟩
        rcases j with _ | j'
        · exact absurd (by simpa using hgt) h30
        · exact ⟨j', by omega, by
            have : tc + 1 + j' = tc + (j' + 1) := by omega
            rwa [this]⟩

/-- When the peer-wait loop ends in an error outcome, `sync` stops right
there with that outcome and zero `self.syncing` polls. -/
theorem sync_of_peerWait_err (env : SyncEnv) (fuel timeout : Nat)
    (o : SyncOutcome) (h : (peerWaitLoop env fuel 0 0).2 = some o) :
    Blockchain.sync env fuel timeout = ⟨o, 0⟩ := by
  unfold Blockchain.sync
  rw [h]

/-- Claim C3: when every poll of the peer list comes back empty, `sync` can
only fail with `SyncTimeout` (or be cut off by fuel, the model's stand-in for
looping forever); the node's sync status is never polled; the run's result is
the same whatever the overall `timeout` argument is (the peer-wait budget is
the fixed 30 seconds, not `timeout`); and `SyncTimeout` is raised exactly
when some check sees elapsed time strictly above 30 seconds — never
earlier. -/
theorem claimC3_sync_no_peers (env : SyncEnv)
    (h : ∀ k, env.peers k = []) (timeout timeout' fuel : Nat) :
    ((Blockchain.sync env fuel timeout).outcome = .syncTimeout ∨
     (Blockchain.sync env fuel timeout).outcome = .outOfFuel)
    ∧ (Blockchain.sync env fuel timeout).syncingCalls = 0
    ∧ Blockchain.sync env fuel timeout = Blockchain.sync env fuel timeout'
    ∧ ((Blockchain.sync env fuel timeout).outcome = .syncTimeout ↔
        ∃ j, j < fuel ∧ 30 < env.elapsed j) := by
  obtain ⟨hdisj, hiff⟩ := peerWaitLoop_empty env h fuel 0 0
  rcases hdisj with hto | hof
  · have e1 := sync_of_peerWait_err env fuel timeout _ hto
    have e2 := sync_of_peerWait_err env fuel timeout' _ hto
    rw [e1, e2]
    refine ⟨Or.inl rfl, rfl, rfl, ?_⟩
    simpa using hiff.mp hto
  · have e1 := sync_of_peerWait_err env fuel timeout _ hof
    have e2 := sync_of_peerWait_err env fuel timeout' _ hof
    rw [e1, e2]
    refine ⟨Or.inr rfl, rfl, rfl, ?_⟩
    constructor
    · intro hcontra
      exact absurd hcontra (by simp)
    · intro hex
      have := hiff.mpr (by simpa using hex)
      rw [hof] at this
      exact absurd this (by simp)

/-- Environment for the C3 witness: no peers ever, sync status never
consulted, and an elapsed-seconds trace that crosses the 30-second budget at
the second check. -/
def envC3 : SyncEnv :=
  { peers := fun _ => [], syncing := fun _ => none,
    getBlock := fun _ => .found, elapsed := fun k => 31 * k }

/-- Claim C3 instantiated on `envC3` with fuel 5 and overall timeouts 600 and
601: the run raises `SyncTimeout` with zero sync-status polls, identically
for both timeouts. -/
theorem claimC3_witness :
    (Blockchain.sync envC3 5 600).outcome = .syncTimeout
    ∧ (Blockchain.sync envC3 5 600).syncingCalls = 0
    ∧ Blockchain.sync envC3 5 600 = Blockchain.sync envC3 5 601 := by
  obtain ⟨_, hsc, heq, hiff⟩ := claimC3_sync_no_peers envC3 (fun _ => rfl) 600 601 5
  exact ⟨hiff.mpr ⟨1, by omega, by decide⟩, hsc, heq⟩

/-- Claim C4: once need-detection has marked sync as needed, if the first
poll of the sync status reports the truthy `(currentBlock, highestBlock) =
(10, 10)` and the second poll reports the falsy value, `sync` returns `True`
having polled the sync status exactly twice, for any overall timeout. -/
theorem claimC4_sync_two_polls (env : SyncEnv) (fuel timeout : Nat)
    (hfuel : 1 ≤ fuel)
    (hpw : (peerWaitLoop env fuel 0 0).2 = none)
    (hneed : detectNeedSync env (env.peers (peerWaitLoop env fuel 0 0).1.1) = .ok true)
    (hs0 : env.syncing 0 = some (10, 10))
    (hs1 : env.syncing 1 = none) :
    Blockchain.sync env fuel timeout = ⟨.ret (some true), 2⟩ := by
  obtain ⟨f, rfl⟩ : ∃ f, fuel = f + 1 := ⟨fuel - 1, by omega⟩
  have hss : syncStartLoop env timeout (f + 1) 0 (peerWaitLoop env (f + 1) 0 0).1.2 =
      ((1, (peerWaitLoop env (f + 1) 0 0).1.2), none) := by
    simp [syncStartLoop, hs0]
  have hsp : syncProgressLoop env timeout (f + 1) 1 (peerWaitLoop env (f + 1) 0 0).1.2 =
      ((2, (peerWaitLoop env (f + 1) 0 0).1.2), none) := by
    simp [syncProgressLoop, hs1]
  unfold Blockchain.sync
  rw [hpw, hneed, hss]
  simp only
  rw [hsp]

/-- Environment for the C4 witness: one peer whose head block the local node
does not know, sync status `(10, 10)` then falsy. -/
def envC4 : SyncEnv :=
  { peers := fun _ => [⟨5⟩],
    syncing := fun k => if k = 0 then some (10, 10) else none,
    getBlock := fun r => if r = 5 then .blockNotFound else .found,
    elapsed := fun _ => 0 }

/-- Claim C4 instantiated on `envC4`: the run returns `True` after exactly
two sync-status polls. -/
theorem claimC4_witness :
    Blockchain.sync envC4 3 600 = ⟨.ret (some true), 2⟩ :=
  claimC4_sync_two_polls envC4 3 600 (by omega) rfl rfl rfl rfl

/-- Claim C5: in need-detection, once every earlier peer's head lookup
succeeded, a peer whose head lookup raises `BlockNotFound` makes detection
finish with `needs_sync = true` regardless of the peers after it (the error
is caught, not propagated, and no further peer is checked), while a peer
whose lookup raises any other error makes that error propagate unchanged. -/
theorem claimC5_blockNotFound_is_signal (env : SyncEnv) (checked : List Peer)
    (p : Peer) (rest rest' : List Peer)
    (hok : ∀ q ∈ checked, env.getBlock q.head = .found) :
    (env.getBlock p.head = .blockNotFound →
      detectNeedSync env (checked ++ p :: rest) = .ok true
      ∧ detectNeedSync env (checked ++ p :: rest) =
        detectNeedSync env (checked ++ p :: rest'))
    ∧ (env.getBlock p.head = .otherError →
      detectNeedSync env (checked ++ p :: rest) = .error .rpcError) := by
  induction checked with
  | nil =>
    refine ⟨fun hnf => ?_, fun herr => ?_⟩
    · constructor <;> simp [detectNeedSync, hnf]
    · simp [detectNeedSync, herr]
  | cons q qs ih =>
    have hq : env.getBlock q.head = .found := hok q (by simp)
    have hqs : ∀ r ∈ qs, env.getBlock r.head = .found :=
      fun r hr => hok r (by simp [hr])
    obtain ⟨ih1, ih2⟩ := ih hqs
    refine ⟨fun hnf => ?_, fun herr => ?_⟩
    · obtain ⟨e1, e2⟩ := ih1 hnf
      constructor
      · simp [detectNeedSync, hq, e1]
      · simp only [List.cons_append, detectNeedSync, hq]
        exact e2
    · simp [detectNeedSync, hq, ih2 herr]

/-- Environment for the C5 witness: peer heads 1 and 2 are known, head 5 is
unknown (`BlockNotFound`), head 9 raises a different error. -/
def envC5 : SyncEnv :=
  { peers := fun _ => [],
    syncing := fun _ => none,
    getBlock := fun r => if r = 5 then .blockNotFound
      else if r = 9 then .otherError else .found,
    elapsed := fun _ => 0 }

/-- Claim C5 instantiated on `envC5`: after two known heads, the head-5 peer
(whose lookup raises `BlockNotFound`) flips detection to `needs sync`
whatever follows it, and a head-9 peer (whose lookup raises another error)
in the same position propagates its error instead. -/
theorem claimC5_witness :
    detectNeedSync envC5 ([⟨1⟩, ⟨2⟩] ++ ⟨5⟩ :: [⟨9⟩]) = .ok true
    ∧ detectNeedSync envC5 ([⟨1⟩, ⟨2⟩] ++ ⟨5⟩ :: [⟨9⟩]) =
        detectNeedSync envC5 ([⟨1⟩, ⟨2⟩] ++ ⟨5⟩ :: [])
    ∧ detectNeedSync envC5 ([⟨1⟩, ⟨2⟩] ++ ⟨9⟩ :: [⟨5⟩]) = .error .rpcError := by
  obtain ⟨h1, _⟩ := claimC5_blockNotFound_is_signal envC5 [⟨1⟩, ⟨2⟩] ⟨5⟩ [⟨9⟩] []
    (by intro q hq; fin_cases hq <;> rfl)
  obtain ⟨e1, e2⟩ := h1 rfl
  have e3 := (claimC5_blockNotFound_is_signal envC5 [⟨1⟩, ⟨2⟩] ⟨9⟩ [⟨5⟩] []
    (by intro q hq; fin_cases hq <;> rfl)).2 rfl
  exact ⟨e1, e2, e3⟩

/-- When every peer in the snapshot has a locally known head block,
need-detection completes with `needs_sync = false`. -/
theorem detectNeedSync_all_found (env : SyncEnv) (l : List Peer)
    (h : ∀ q ∈ l, env.getBlock q.head = .found) :
    detectNeedSync env l = .ok false := by
  induction l with
  | nil => rfl
  | cons q qs ih =>
    have hq : env.getBlock q.head = .found := h q (by simp)
    simpa [detectNeedSync, hq] using ih (fun r hr => h r (by simp [hr]))

/-- Claim C6: when the peer-wait phase completes and every peer's claimed
head block is locally known, `sync` returns immediately with Python's `None`
(not `True`), and the sync status is never polled: zero `self.syncing`
calls. -/
theorem claimC6_no_sync_needed (env : SyncEnv) (fuel timeout : Nat)
    (hpw : (peerWaitLoop env fuel 0 0).2 = none)
    (hall : ∀ q ∈ env.peers (peerWaitLoop env fuel 0 0).1.1,
      env.getBlock q.head = .found) :
    Blockchain.sync env fuel timeout = ⟨.ret none, 0⟩ := by
  unfold Blockchain.sync
  rw [hpw, detectNeedSync_all_found env _ hall]

/-- Environment for the C6 witness: one peer whose head block is locally
known. -/
def envC6 : SyncEnv :=
  { peers := fun _ => [⟨5⟩], syncing := fun _ => none,
    getBlock := fun _ => .found, elapsed := fun _ => 0 }

/-- Claim C6 instantiated on `envC6`: `sync` returns `None` with zero
sync-status polls. -/
theorem claimC6_witness :
    Blockchain.sync envC6 3 600 = ⟨.ret none, 0⟩ :=
  claimC6_no_sync_needed envC6 3 600 rfl (by intro q hq; fin_cases hq <;> rfl)

/-- Invariant tying a state to the identity `n` of the one instance ever
created from it: either no instance exists yet and no identity has been
consumed, or the singleton holds the instance with identity `n`. -/
def goodState (n : Nat) (s : ChainState) : Prop :=
  (s.inst? = none ∧ s.nextId = n) ∨
  (∃ inst, s.inst? = some inst ∧ inst.iid = n ∧ s.nextId = n + 1)

/-- A `connect` against an empty singleton slot creates the instance with the
next identity and installs it; the call returns that instance, or propagates
`SyncTimeout` with the instance nevertheless installed. -/
theorem connect_fresh (a : ConnectArgs) (n : Nat) :
    ∃ inst : BcInstance,
      (Blockchain.connect a ⟨none, n⟩).1 = ⟨some inst, n + 1⟩ ∧
      inst.iid = n ∧
      ((Blockchain.connect a ⟨none, n⟩).2 = .ok inst ∨
       (Blockchain.connect a ⟨none, n⟩).2 = .error .syncTimeoutError) := by
  cases hfs : a.full_sync with
  | false =>
    simp only [Blockchain.connect, Blockchain.init, hfs]
    exact ⟨_, rfl, rfl, Or.inl rfl⟩
  | true =>
    cases hso : a.env.syncOutcome with
    | ok v =>
      simp only [Blockchain.connect, Blockchain.init, hfs, hso]
      exact ⟨_, rfl, rfl, Or.inl rfl⟩
    | error e =>
      simp only [Blockchain.connect, Blockchain.init, hfs, hso]
      exact ⟨_, rfl, rfl, Or.inr rfl⟩

/-- A `connect` against an occupied singleton slot either raises the
conflicting-connection error leaving the state unchanged, or returns the
stored instance (possibly with its registry swapped in place: same identity,
same provider process, same URI). -/
theorem connect_existing (a : ConnectArgs) (s : ChainState) (inst : BcInstance)
    (h : s.inst? = some inst) :
    ∃ inst' : BcInstance, inst'.iid = inst.iid ∧
      inst'.interface.provider_uri = inst.interface.provider_uri ∧
      (Blockchain.connect a s).1 = { s with inst? := some inst' } ∧
      ((Blockchain.connect a s).2 = .ok inst' ∨
       (Blockchain.connect a s).2 =
         .error (.valueError (conflictingConnectionMsg inst.interface.provider_uri))) := by
  obtain ⟨i?, n⟩ := s
  simp only [ChainState.inst?] at h
  subst h
  cases hc : conflictingUri a.provider_uri a.force inst with
  | true =>
    exact ⟨inst, rfl, rfl, by simp [Blockchain.connect, hc],
      Or.inr (by simp [Blockchain.connect, hc])⟩
  | false =>
    cases hr : a.registry with
    | none =>
      exact ⟨inst, rfl, rfl, by simp [Blockchain.connect, hc, hr],
        Or.inl (by simp [Blockchain.connect, hc, hr])⟩
    | some r =>
      exact ⟨{ inst with interface := { inst.interface with registry := r } },
        rfl, rfl, by simp [Blockchain.connect, hc, hr],
        Or.inl (by simp [Blockchain.connect, hc, hr])⟩

/-- One `connect` call preserves the invariant, and any instance it returns
has the one created identity `n`. -/
theorem connect_preserves (a : ConnectArgs) (s : ChainState) (n : Nat)
    (hg : goodState n s) :
    goodState n (Blockchain.connect a s).1 ∧
    ∀ inst, (Blockchain.connect a s).2 = .ok inst → inst.iid = n := by
  rcases hg with ⟨hnone, hnext⟩ | ⟨inst, hsome, hiid, hnext⟩
  · obtain ⟨i?, m⟩ := s
    simp only [ChainState.inst?] at hnone
    simp only [ChainState.nextId] at hnext
    subst hnone; subst hnext
    obtain ⟨inst, hst, hiid, hres⟩ := connect_fresh a m
    refine ⟨Or.inr ⟨inst, by rw [hst], hiid, by rw [hst]⟩, ?_⟩
    intro i hok
    rcases hres with hres | hres
    · rw [hres] at hok
      cases hok
      exact hiid
    · rw [hres] at hok
      cases hok
  · obtain ⟨inst', hiid', _, hst, hres⟩ := connect_existing a s inst hsome
    refine ⟨Or.inr ⟨inst', by rw [hst], by rw [hiid', hiid],
      by rw [hst]; exact hnext⟩, ?_⟩
    intro i hok
    rcases hres with hres | hres
    · rw [hres] at hok
      cases hok
      rw [hiid', hiid]
    · rw [hres] at hok
      cases hok

/-- The invariant carries through any sequence of `connect` calls, every
successful result has identity `n`, and the identity counter never passes
`n + 1` (at most one instance is ever created). -/
theorem runConnects_good (n : Nat) :
    ∀ (calls : List ConnectArgs) (s : ChainState), goodState n s →
      goodState n (runConnects s calls).1 ∧
      (∀ r ∈ (runConnects s calls).2, ∀ inst, r = .ok inst → inst.iid = n)
  | [], s, hg => ⟨hg, by simp [runConnects]⟩
  | a :: rest, s, hg => by
    obtain ⟨hg', hok⟩ := connect_preserves a s n hg
    obtain ⟨hgr, hokr⟩ := runConnects_good n rest (Blockchain.connect a s).1 hg'
    refine ⟨by simpa [runConnects] using hgr, ?_⟩
    intro r hr inst hok'
    simp only [runConnects, List.mem_cons] at hr
    rcases hr with hr | hr
    · exact hok inst (by rw [← hr, hok'])
    · exact hokr r hr inst hok'

/-- The invariant bounds the identity counter. -/
theorem goodState_nextId_le (n : Nat) (s : ChainState) (hg : goodState n s) :
    s.nextId ≤ n + 1 := by
  rcases hg with ⟨_, hnext⟩ | ⟨_, _, _, hnext⟩ <;> omega

/-- Claim C1: starting from a state with no connection, over any sequence of
`connect` calls (with no `disconnect` in between) every call that returns an
instance returns the instance with identity `s0.nextId` — the one created by
the first call — at most one identity is ever consumed, and the singleton
slot, when occupied, holds that same instance identity throughout. -/
theorem claimC1_connect_singleton (s0 : ChainState) (h : s0.inst? = none)
    (calls : List ConnectArgs) :
    (∀ r ∈ (runConnects s0 calls).2, ∀ inst, r = .ok inst → inst.iid = s0.nextId)
    ∧ (runConnects s0 calls).1.nextId ≤ s0.nextId + 1
    ∧ (∀ inst, (runConnects s0 calls).1.inst? = some inst → inst.iid = s0.nextId) := by
  have hg : goodState s0.nextId s0 := Or.inl ⟨h, rfl⟩
  obtain ⟨hgr, hok⟩ := runConnects_good s0.nextId calls s0 hg
  refine ⟨hok, goodState_nextId_le _ _ hgr, ?_⟩
  intro inst hsome
  rcases hgr with ⟨hnone, _⟩ | ⟨inst', hsome', hiid, _⟩
  · rw [hnone] at hsome
    cases hsome
  · rw [hsome'] at hsome
    cases hsome
    exact hiid

/-- Connect arguments for the C1 witness. -/
def argsC1 : ConnectArgs :=
  { env := { fetchLatestPublication := .ok ⟨7⟩, freshRegistry := ⟨0⟩,
             syncOutcome := .ok () },
    provider_process := none, provider_uri := some "http://a",
    registry := none, deployer := false, poa := false,
    force := true, fetch_registry := true, full_sync := true }

/-- The instance created by the first C1-witness `connect`. -/
def instC1 : BcInstance :=
  { iid := 0, provider_process := none,
    interface := { provider_uri := some "http://a", registry := ⟨7⟩,
                   deployer := false, poa := false } }

/-- Claim C1 instantiated: two successive `connect` calls from the empty
state both return the instance of identity 0 created by the first call, one
identity is consumed, and the final singleton holds that instance. -/
theorem claimC1_witness :
    instC1.iid = 0
    ∧ (runConnects (⟨none, 0⟩ : ChainState) [argsC1, argsC1]).1.nextId ≤ 0 + 1
    ∧ (runConnects (⟨none, 0⟩ : ChainState) [argsC1, argsC1]).1.inst? = some instC1 := by
  obtain ⟨hres, hnext, _⟩ := claimC1_connect_singleton ⟨none, 0⟩ rfl [argsC1, argsC1]
  have hE : (runConnects (⟨none, 0⟩ : ChainState) [argsC1, argsC1]).2 =
      [.ok instC1, .ok instC1] := rfl
  have hmem : Except.ok instC1 ∈ (runConnects (⟨none, 0⟩ : ChainState) [argsC1, argsC1]).2 := by
    rw [hE]
    exact List.mem_cons_self _ _
  exact ⟨hres _ hmem instC1 rfl, hnext, rfl⟩

/-- Connect arguments for the C2 demonstration: the first connect owns a
provider process. -/
def argsC2 : ConnectArgs :=
  { env := { fetchLatestPublication := .ok ⟨7⟩, freshRegistry := ⟨0⟩,
             syncOutcome := .ok () },
    provider_process := some ⟨false⟩, provider_uri := some "http://a",
    registry := none, deployer := false, poa := false,
    force := true, fetch_registry := true, full_sync := true }

/-- The instance as it stands after the C2 scenario's disconnect: identity 0,
its owned process stopped. -/
def instC2 : BcInstance :=
  { iid := 0, provider_process := some ⟨false⟩,
    interface := { provider_uri := some "http://a", registry := ⟨7⟩,
                   deployer := false, poa := false } }

/-- Claim C2, behavior of the source at the failing input: after a `connect`
that created instance 0 owning a started process, `disconnect` does stop the
process (`running = false`), but it leaves the singleton slot occupied by
instance 0, and the following `connect` returns that same instance 0 instead
of creating a fresh one — the singleton is never cleared. -/
theorem claimC2_disconnect_keeps_singleton :
    (Blockchain.connect argsC2 ⟨none, 0⟩).1.inst? =
      some { instC2 with provider_process := some ⟨true⟩ }
    ∧ (Blockchain.disconnect (Blockchain.connect argsC2 ⟨none, 0⟩).1).inst? = some instC2
    ∧ instC2.provider_process = some ⟨false⟩
    ∧ (Blockchain.connect argsC2
        (Blockchain.disconnect (Blockchain.connect argsC2 ⟨none, 0⟩).1)).2 = .ok instC2
    ∧ instC2.iid = 0 :=
  ⟨rfl, rfl, rfl, rfl, rfl⟩

end NucypherChains
